import Mathlib

/-!
Verification development for the TextLens crop-overlay and capture logic.

The definitions below are a shallow embedding of the TypeScript sources:
`src/App.tsx` (crop-box drag geometry, frame-to-source mapping, capture
orchestration, camera acquisition, history deletion) and
`src/services/geminiService.ts` (the text-extraction wrapper).
JavaScript numbers on these code paths are modelled by rationals, the
percentage arithmetic of the crop box being exact; fallible calls are
modelled by `Except`, and the browser environment (video element, canvas,
API responses) by explicit environment records.
-/

set_option maxHeartbeats 1000000

namespace TextLens

/-- The normalized crop rectangle of `src/App.tsx` (interface `BoxRect`):
four percentages `top`, `left`, `width`, `height` of the displayed frame. -/
structure BoxRect where
  top : ℚ
  left : ℚ
  width : ℚ
  height : ℚ
deriving DecidableEq, Repr

/-- The initial crop rectangle, `useState<BoxRect>({ top: 35, left: 7.5, width: 85, height: 30 })`
in `src/App.tsx`. -/
def initialBoxRect : BoxRect := ⟨35, 7.5, 85, 30⟩

/-- JavaScript `String.prototype.includes`: `strIncludes s pat` is `true`
iff `pat` occurs as a contiguous substring of `s`. -/
def strIncludes (s pat : String) : Bool :=
  (List.range (s.data.length + 1)).any
    (fun i => decide ((s.data.drop i).take pat.data.length = pat.data))

/-- The four corner resize handles rendered by the crop overlay in
`src/App.tsx` (the array literal mapped over at line 335). -/
def resizeHandles : List String :=
  ["top-left", "top-right", "bottom-left", "bottom-right"]

/-- All handle identifiers a drag session can begin with: the move region
(`handleBoxInteractionStart(e, 'move')`) plus the four corner handles. -/
def dragHandles : List String := "move" :: resizeHandles

/-- `MIN_SIZE`: the `minSize = 10` constant of `handleBoxInteractionMove`. -/
def minSize : ℚ := 10

/-- The `move` branch of `handleBoxInteractionMove`: translate the box,
clamping `left` into `[0, 100 - prev.width]` and `top` into
`[0, 100 - prev.height]`, starting from the drag baseline `initialBox`. -/
def moveUpdate (initialBox prev : BoxRect) (dx dy : ℚ) : BoxRect :=
  { prev with
    left := max 0 (min (100 - prev.width) (initialBox.left + dx)),
    top := max 0 (min (100 - prev.height) (initialBox.top + dy)) }

/-- The `includes('right')` branch: grow or shrink the right edge, the new
width clamped between `minSize` and `100 - prev.left`. -/
def rightUpdate (initialBox prev : BoxRect) (dx : ℚ) : BoxRect :=
  { prev with width := max minSize (min (100 - prev.left) (initialBox.width + dx)) }

/-- The `includes('left')` branch: move the left edge keeping the right edge
of the baseline box fixed; only applied when the resulting `left` stays
non-negative. -/
def leftUpdate (initialBox prev : BoxRect) (dx : ℚ) : BoxRect :=
  let newWidth := max minSize (initialBox.width - dx)
  let actualDx := initialBox.width - newWidth
  if 0 ≤ initialBox.left + actualDx then
    { prev with width := newWidth, left := initialBox.left + actualDx }
  else prev

/-- The `includes('bottom')` branch: grow or shrink the bottom edge, the new
height clamped between `minSize` and `100 - prev.top`. -/
def bottomUpdate (initialBox prev : BoxRect) (dy : ℚ) : BoxRect :=
  { prev with height := max minSize (min (100 - prev.top) (initialBox.height + dy)) }

/-- The `includes('top')` branch: move the top edge keeping the bottom edge
of the baseline box fixed; only applied when the resulting `top` stays
non-negative. -/
def topUpdate (initialBox prev : BoxRect) (dy : ℚ) : BoxRect :=
  let newHeight := max minSize (initialBox.height - dy)
  let actualDy := initialBox.height - newHeight
  if 0 ≤ initialBox.top + actualDy then
    { prev with height := newHeight, top := initialBox.top + actualDy }
  else prev

/-- The body of the `setBoxRect` updater inside `handleBoxInteractionMove`
(`src/App.tsx` lines 180-207): `activeHandle` is the handle identifier of
the drag session, `initialBox` the box recorded at drag start, `prev` the
current box, and `dx`, `dy` the pointer displacement in percent units.
Edge branches are tried in the source order `right`, `left`, `bottom`,
`top`, each guarded by substring containment on the handle identifier. -/
def handleBoxInteractionMove (activeHandle : String) (initialBox prev : BoxRect)
    (dx dy : ℚ) : BoxRect :=
  if activeHandle = "move" then
    moveUpdate initialBox prev dx dy
  else
    let n1 := if strIncludes activeHandle "right" then rightUpdate initialBox prev dx else prev
    let n2 := if strIncludes activeHandle "left" then leftUpdate initialBox n1 dx else n1
    let n3 := if strIncludes activeHandle "bottom" then bottomUpdate initialBox n2 dy else n2
    if strIncludes activeHandle "top" then topUpdate initialBox n3 dy else n3

/-- The containment and minimum-size invariant of the spec:
`0 ≤ left`, `0 ≤ top`, `left + width ≤ 100`, `top + height ≤ 100`,
`width ≥ 10`, `height ≥ 10`. -/
def BoxRect.Valid (r : BoxRect) : Prop :=
  0 ≤ r.left ∧ 0 ≤ r.top ∧ r.left + r.width ≤ 100 ∧ r.top + r.height ≤ 100 ∧
    minSize ≤ r.width ∧ minSize ≤ r.height

instance (r : BoxRect) : Decidable r.Valid := by
  unfold BoxRect.Valid
  infer_instance

theorem update_move_eval (i p : BoxRect) (dx dy : ℚ) :
    handleBoxInteractionMove "move" i p dx dy = moveUpdate i p dx dy := by
  simp [handleBoxInteractionMove]

theorem update_topleft_eval (i p : BoxRect) (dx dy : ℚ) :
    handleBoxInteractionMove "top-left" i p dx dy =
      topUpdate i (leftUpdate i p dx) dy := by
  have hR : strIncludes "top-left" "right" = false := by decide
  have hL : strIncludes "top-left" "left" = true := by decide
  have hB : strIncludes "top-left" "bottom" = false := by decide
  have hT : strIncludes "top-left" "top" = true := by decide
  have hM : ¬ ("top-left" = "move") := by decide
  simp [handleBoxInteractionMove, hR, hL, hB, hT, hM]

theorem update_topright_eval (i p : BoxRect) (dx dy : ℚ) :
    handleBoxInteractionMove "top-right" i p dx dy =
      topUpdate i (rightUpdate i p dx) dy := by
  have hR : strIncludes "top-right" "right" = true := by decide
  have hL : strIncludes "top-right" "left" = false := by decide
  have hB : strIncludes "top-right" "bottom" = false := by decide
  have hT : strIncludes "top-right" "top" = true := by decide
  have hM : ¬ ("top-right" = "move") := by decide
  simp [handleBoxInteractionMove, hR, hL, hB, hT, hM]

theorem update_bottomleft_eval (i p : BoxRect) (dx dy : ℚ) :
    handleBoxInteractionMove "bottom-left" i p dx dy =
      bottomUpdate i (leftUpdate i p dx) dy := by
  have hR : strIncludes "bottom-left" "right" = false := by decide
  have hL : strIncludes "bottom-left" "left" = true := by decide
  have hB : strIncludes "bottom-left" "bottom" = true := by decide
  have hT : strIncludes "bottom-left" "top" = false := by decide
  have hM : ¬ ("bottom-left" = "move") := by decide
  simp [handleBoxInteractionMove, hR, hL, hB, hT, hM]

theorem update_bottomright_eval (i p : BoxRect) (dx dy : ℚ) :
    handleBoxInteractionMove "bottom-right" i p dx dy =
      bottomUpdate i (rightUpdate i p dx) dy := by
  have hR : strIncludes "bottom-right" "right" = true := by decide
  have hL : strIncludes "bottom-right" "left" = false := by decide
  have hB : strIncludes "bottom-right" "bottom" = true := by decide
  have hT : strIncludes "bottom-right" "top" = false := by decide
  have hM : ¬ ("bottom-right" = "move") := by decide
  simp [handleBoxInteractionMove, hR, hL, hB, hT, hM]

theorem moveUpdate_valid (i p : BoxRect) (dx dy : ℚ) (hp : p.Valid) :
    (moveUpdate i p dx dy).Valid := by
  obtain ⟨h1, h2, h3, h4, h5, h6⟩ := hp
  simp only [BoxRect.Valid, moveUpdate, minSize] at *
  refine ⟨le_max_left _ _, le_max_left _ _, ?_, ?_, h5, h6⟩
  · have hle : max 0 (min (100 - p.width) (i.left + dx)) ≤ 100 - p.width :=
      max_le (by linarith) (min_le_left _ _)
    linarith
  · have hle : max 0 (min (100 - p.height) (i.top + dy)) ≤ 100 - p.height :=
      max_le (by linarith) (min_le_left _ _)
    linarith

theorem rightUpdate_valid (i p : BoxRect) (dx : ℚ) (hp : p.Valid) :
    (rightUpdate i p dx).Valid := by
  obtain ⟨h1, h2, h3, h4, h5, h6⟩ := hp
  simp only [BoxRect.Valid, rightUpdate, minSize] at *
  refine ⟨h1, h2, ?_, h4, le_max_left _ _, h6⟩
  have hle : max 10 (min (100 - p.left) (i.width + dx)) ≤ 100 - p.left :=
    max_le (by linarith) (min_le_left _ _)
  linarith

theorem leftUpdate_valid (i p : BoxRect) (dx : ℚ) (hi : i.Valid) (hp : p.Valid) :
    (leftUpdate i p dx).Valid := by
  obtain ⟨g1, g2, g3, g4, g5, g6⟩ := hi
  obtain ⟨h1, h2, h3, h4, h5, h6⟩ := hp
  simp only [BoxRect.Valid, leftUpdate, minSize] at *
  split_ifs with hg
  · dsimp only
    refine ⟨hg, h2, ?_, h4, le_max_left _ _, h6⟩
    linarith [le_max_left (10 : ℚ) (i.width - dx)]
  · exact ⟨h1, h2, h3, h4, h5, h6⟩

theorem bottomUpdate_valid (i p : BoxRect) (dy : ℚ) (hp : p.Valid) :
    (bottomUpdate i p dy).Valid := by
  obtain ⟨h1, h2, h3, h4, h5, h6⟩ := hp
  simp only [BoxRect.Valid, bottomUpdate, minSize] at *
  refine ⟨h1, h2, h3, ?_, h5, le_max_left _ _⟩
  have hle : max 10 (min (100 - p.top) (i.height + dy)) ≤ 100 - p.top :=
    max_le (by linarith) (min_le_left _ _)
  linarith

theorem topUpdate_valid (i p : BoxRect) (dy : ℚ) (hi : i.Valid) (hp : p.Valid) :
    (topUpdate i p dy).Valid := by
  obtain ⟨g1, g2, g3, g4, g5, g6⟩ := hi
  obtain ⟨h1, h2, h3, h4, h5, h6⟩ := hp
  simp only [BoxRect.Valid, topUpdate, minSize] at *
  split_ifs with hg
  · dsimp only
    refine ⟨h1, hg, h3, ?_, h5, le_max_left _ _⟩
    linarith [le_max_left (10 : ℚ) (i.height - dy)]
  · exact ⟨h1, h2, h3, h4, h5, h6⟩

theorem update_valid_aux (h : String) (hmem : h ∈ dragHandles)
    (i p : BoxRect) (dx dy : ℚ) (hi : i.Valid) (hp : p.Valid) :
    (handleBoxInteractionMove h i p dx dy).Valid := by
  fin_cases hmem
  · rw [update_move_eval]
    exact moveUpdate_valid i p dx dy hp
  · rw [update_topleft_eval]
    exact topUpdate_valid i _ dy hi (leftUpdate_valid i p dx hi hp)
  · rw [update_topright_eval]
    exact topUpdate_valid i _ dy hi (rightUpdate_valid i p dx hp)
  · rw [update_bottomleft_eval]
    exact bottomUpdate_valid i _ dy (leftUpdate_valid i p dx hi hp)
  · rw [update_bottomright_eval]
    exact bottomUpdate_valid i _ dy (rightUpdate_valid i p dx hp)

/-- C1: for every drag update with a handle identifier among `move`,
`top-left`, `top-right`, `bottom-left`, `bottom-right` and any pointer
displacement `dx`, `dy`, if the crop rectangles held by the program before
the update (the drag baseline `initialBox` and the current rectangle
`prev`, which coincide when the drag begins) satisfy `0 ≤ left`, `0 ≤ top`,
`left + width ≤ 100`, `top + height ≤ 100`, `width ≥ 10` and `height ≥ 10`,
then the rectangle produced by `handleBoxInteractionMove` satisfies the
same six inequalities. -/
theorem drag_update_preserves_valid (h : String) (hmem : h ∈ dragHandles)
    (i p : BoxRect) (dx dy : ℚ) (hi : i.Valid) (hp : p.Valid) :
    (handleBoxInteractionMove h i p dx dy).Valid :=
  update_valid_aux h hmem i p dx dy hi hp

theorem foldl_update_valid (h : String) (hmem : h ∈ dragHandles) (base : BoxRect)
    (hbase : base.Valid) (moves : List (ℚ × ℚ)) (cur : BoxRect) (hcur : cur.Valid) :
    (moves.foldl (fun c m => handleBoxInteractionMove h base c m.1 m.2) cur).Valid := by
  induction moves generalizing cur with
  | nil => exact hcur
  | cons m rest ih =>
    simp only [List.foldl_cons]
    exact ih _ (update_valid_aux h hmem base cur m.1 m.2 hbase hcur)

/-- A whole drag session: the baseline is the rectangle recorded at drag
start, and each move event updates the current rectangle from that baseline.
Starting from any rectangle satisfying the invariant, every rectangle
produced during the session satisfies it. -/
theorem drag_session_preserves_valid (h : String) (hmem : h ∈ dragHandles)
    (r : BoxRect) (hr : r.Valid) (moves : List (ℚ × ℚ)) :
    (moves.foldl (fun cur m => handleBoxInteractionMove h r cur m.1 m.2) r).Valid :=
  foldl_update_valid h hmem r hr moves r hr

/-- Witness for C1: the top-left resize handle applied to the concrete valid
rectangle with top 35, left 5, width 85, height 30 and displacement (20, -10)
produces a rectangle satisfying the invariant. -/
theorem drag_update_preserves_valid_witness :
    (handleBoxInteractionMove "top-left" ⟨35, 5, 85, 30⟩ ⟨35, 5, 85, 30⟩ 20 (-10)).Valid :=
  drag_update_preserves_valid "top-left" (by decide) ⟨35, 5, 85, 30⟩ ⟨35, 5, 85, 30⟩
    20 (-10) (by norm_num [BoxRect.Valid, minSize]) (by norm_num [BoxRect.Valid, minSize])

/-- C3: the `move` branch keeps width and height unchanged, clamps the new
`left` into `[0, 100 - width]` and the new `top` into `[0, 100 - height]`
(whenever those intervals are nonempty), and in particular moving a
rectangle with width 85 and left 7.5 by `dx = 20` yields `left = 15`,
not 27.5. -/
theorem move_clamps (i p : BoxRect) (dx dy : ℚ)
    (hw : p.width ≤ 100) (hh : p.height ≤ 100) :
    (handleBoxInteractionMove "move" i p dx dy).width = p.width ∧
    (handleBoxInteractionMove "move" i p dx dy).height = p.height ∧
    0 ≤ (handleBoxInteractionMove "move" i p dx dy).left ∧
    (handleBoxInteractionMove "move" i p dx dy).left ≤ 100 - p.width ∧
    0 ≤ (handleBoxInteractionMove "move" i p dx dy).top ∧
    (handleBoxInteractionMove "move" i p dx dy).top ≤ 100 - p.height ∧
    (handleBoxInteractionMove "move" initialBoxRect initialBoxRect 20 0).left = 15 := by
  rw [update_move_eval, update_move_eval]
  refine ⟨rfl, rfl, ?_, ?_, ?_, ?_, ?_⟩
  · dsimp only [moveUpdate]
    exact le_max_left _ _
  · dsimp only [moveUpdate]
    exact max_le (by linarith) (min_le_left _ _)
  · dsimp only [moveUpdate]
    exact le_max_left _ _
  · dsimp only [moveUpdate]
    exact max_le (by linarith) (min_le_left _ _)
  · norm_num [moveUpdate, initialBoxRect, min_def, max_def]

/-- Witness for C3: the move clamps applied at the initial rectangle. -/
theorem move_clamps_witness :
    (handleBoxInteractionMove "move" initialBoxRect initialBoxRect 20 0).left = 15 :=
  (move_clamps initialBoxRect initialBoxRect 20 0 (by norm_num [initialBoxRect])
    (by norm_num [initialBoxRect])).2.2.2.2.2.2

/-- The visible sub-rectangle of the source frame under cover-fit display,
in source-pixel units: the values `vW`, `vH`, `xO`, `yO` computed inside
`captureAndExtract` (`src/App.tsx` lines 254-256). -/
structure VisibleRect where
  vW : ℚ
  vH : ℚ
  xO : ℚ
  yO : ℚ
deriving DecidableEq, Repr

/-- The letterbox/pillarbox computation of `captureAndExtract`: `sW`, `sH`
are the source pixel dimensions of the video frame and `dW`, `dH` the
displayed element dimensions. -/
def visibleSubRect (sW sH dW dH : ℚ) : VisibleRect :=
  let sR := sW / sH
  let dR := dW / dH
  if sR > dR then ⟨sH * dR, sH, (sW - sH * dR) / 2, 0⟩
  else ⟨sW, sW / dR, 0, (sH - sW / dR) / 2⟩

/-- The crop-coordinate computation of `captureAndExtract` (`src/App.tsx`
lines 258-261): maps the normalized crop rectangle into absolute
source-pixel coordinates `(cropX, cropY, cropW, cropH)`. -/
def cropCoords (v : VisibleRect) (r : BoxRect) : ℚ × ℚ × ℚ × ℚ :=
  (v.xO + v.vW * (r.left / 100), v.yO + v.vH * (r.top / 100),
    v.vW * (r.width / 100), v.vH * (r.height / 100))

/-- C2: the frame-to-source mapping satisfies the spec formulas — when
`sR > dR` the display uses the full source height (`vH = sH`,
`vW = sH * dR`, `xO = (sW - vW)/2`, `yO = 0`), otherwise the full source
width — and on the concrete example `sW = 1920`, `sH = 1080`, `dW = 400`,
`dH = 800` the visible rectangle is `(vW, vH, xO, yO) = (540, 1080, 690, 0)`
and the crop rectangle with top 35, left 7.5, width 85, height 30 maps to
`(cropX, cropY, cropW, cropH) = (730.5, 378, 459, 324)`. -/
theorem mapper_spec (sW sH dW dH : ℚ) :
    (sW / sH > dW / dH →
      visibleSubRect sW sH dW dH =
        ⟨sH * (dW / dH), sH, (sW - sH * (dW / dH)) / 2, 0⟩) ∧
    (¬ sW / sH > dW / dH →
      visibleSubRect sW sH dW dH =
        ⟨sW, sW / (dW / dH), 0, (sH - sW / (dW / dH)) / 2⟩) ∧
    visibleSubRect 1920 1080 400 800 = ⟨540, 1080, 690, 0⟩ ∧
    cropCoords (visibleSubRect 1920 1080 400 800) ⟨35, 7.5, 85, 30⟩ =
      (730.5, 378, 459, 324) := by
  refine ⟨?_, ?_, ?_, ?_⟩
  · intro h
    simp only [visibleSubRect, if_pos h]
  · intro h
    simp only [visibleSubRect, if_neg h]
  · rw [show visibleSubRect 1920 1080 400 800 = ⟨540, 1080, 690, 0⟩ from ?_]
    unfold visibleSubRect
    norm_num
  · unfold visibleSubRect cropCoords
    norm_num

/-- Witness for C2: the visible sub-rectangle of a 1920 by 1080 source shown
in a 400 by 800 element, obtained from the landscape branch of the theorem. -/
theorem mapper_spec_witness :
    visibleSubRect 1920 1080 400 800 =
      ⟨1080 * (400 / 800), 1080, (1920 - 1080 * (400 / 800)) / 2, 0⟩ :=
  (mapper_spec 1920 1080 400 800).1 (by norm_num)

/-- C9 counterexample: the crop overlay renders four corner resize handles,
not eight, so together with the move region there are five drag handle
identifiers, not nine. -/
theorem handle_count_cx :
    resizeHandles.length = 4 ∧ ¬ resizeHandles.length = 8 ∧
      dragHandles.length = 5 ∧ ¬ dragHandles.length = 9 := by
  decide

/-- C9 amended: the crop overlay offers four corner resize handles plus a
move region; a drag session begins with one of five handle identifiers —
`move` and the four corner identifiers, each composed of one of `top` or
`bottom` and one of `left` or `right`. -/
theorem handle_identifiers :
    dragHandles = ["move", "top-left", "top-right", "bottom-left", "bottom-right"] ∧
    resizeHandles.length = 4 ∧ dragHandles.length = 5 ∧
    (∀ h ∈ resizeHandles,
      (strIncludes h "top" = true ∨ strIncludes h "bottom" = true) ∧
      (strIncludes h "left" = true ∨ strIncludes h "right" = true)) := by
  decide

/-- The application state enum of `src/types.ts`. -/
inductive AppState where
  | IDLE
  | CAPTURING
  | PROCESSING
  | ERROR
deriving DecidableEq, Repr

/-- One extraction result of `src/types.ts` (interface `ExtractionResult`):
an immutable record of one successful capture. -/
structure ExtractionResult where
  id : String
  timestamp : Nat
  text : String
  previewUrl : String
deriving DecidableEq, Repr

/-- The React state of the `App` component that the claims concern:
`appState`, `history`, `error`, `latestResult`, `isApiKeyMissing`,
`toastMessage`, the crop rectangle `boxRect`, and whether a camera stream
is held. -/
structure Model where
  appState : AppState
  history : List ExtractionResult
  error : Option String
  latestResult : Option ExtractionResult
  isApiKeyMissing : Bool
  toastMessage : Option String
  boxRect : BoxRect
  stream : Bool
deriving DecidableEq, Repr

/-- The API-key check used throughout `src/App.tsx` and
`src/services/geminiService.ts`: the JavaScript test
`!key || key === "undefined" || key === ""` negated, with an absent
environment variable modelled by `none`. -/
def keyConfigured : Option String → Bool
  | none => false
  | some k => ¬ (k = "undefined" ∨ k = "")

/-- The browser environment a single `captureAndExtract` call observes:
the API key, presence of the video and canvas elements and the 2d context,
the video frame and element dimensions, the outcome of the awaited
`extractTextFromImage` call, and the fresh id, timestamp and preview URL
of a would-be new record. -/
structure CaptureEnv where
  apiKey : Option String
  videoPresent : Bool
  canvasPresent : Bool
  contextPresent : Bool
  videoWidth : ℚ
  videoHeight : ℚ
  clientWidth : ℚ
  clientHeight : ℚ
  extraction : Except String String
  newId : String
  newTimestamp : Nat
  previewUrl : String
deriving Repr

/-- The outcome of one `captureAndExtract` call: the resulting component
state, whether an extraction request was issued, and the source-pixel crop
rectangle handed to the pixel copy (none when the frame-to-source mapper
was never invoked). -/
structure CaptureOutcome where
  model : Model
  requestStarted : Bool
  cropUsed : Option (ℚ × ℚ × ℚ × ℚ)
deriving Repr

/-- The message set by `captureAndExtract` when the API key is missing. -/
def setKeyFirstMsg : String :=
  "Please set your Gemini API Key in the deployment settings first."

/-- The `captureAndExtract` function of `src/App.tsx` (lines 226-278) as a
state transformer. In order: the API-key guard; the early return when the
video or canvas is absent or the state is already `PROCESSING`; the
`setAppState(PROCESSING)` and `setLatestResult(null)` writes followed by
the abort when the 2d context is unavailable or `video.videoWidth === 0`;
then the mapper, the pixel copy, and the awaited extraction whose success
prepends a new record to history and whose failure surfaces the error
message, both returning the state to `IDLE`. -/
def captureAndExtract (env : CaptureEnv) (s : Model) : CaptureOutcome :=
  if keyConfigured env.apiKey = false then
    ⟨{ s with error := some setKeyFirstMsg, isApiKeyMissing := true }, false, none⟩
  else if env.videoPresent = false ∨ env.canvasPresent = false ∨
      s.appState = AppState.PROCESSING then
    ⟨s, false, none⟩
  else if env.contextPresent = false ∨ env.videoWidth = 0 then
    ⟨{ s with appState := AppState.IDLE, latestResult := none }, false, none⟩
  else
    let crop := cropCoords
      (visibleSubRect env.videoWidth env.videoHeight env.clientWidth env.clientHeight)
      s.boxRect
    match env.extraction with
    | Except.ok text =>
        let res : ExtractionResult := ⟨env.newId, env.newTimestamp, text, env.previewUrl⟩
        let m := { s with
          history := res :: s.history
          latestResult := some res
          appState := AppState.IDLE
          toastMessage := some "Text detected!" }
        ⟨m, true, some crop⟩
    | Except.error msg =>
        let m := { s with
          error := some msg
          appState := AppState.IDLE
          latestResult := none }
        ⟨m, true, some crop⟩

/-- C4: triggering capture while the state is `PROCESSING` starts no
extraction request and leaves the history list and the application state
unchanged, whatever the environment. -/
theorem processing_guard (env : CaptureEnv) (s : Model)
    (hproc : s.appState = AppState.PROCESSING) :
    (captureAndExtract env s).requestStarted = false ∧
    (captureAndExtract env s).model.history = s.history ∧
    (captureAndExtract env s).model.appState = s.appState := by
  cases hk : keyConfigured env.apiKey <;>
    simp [captureAndExtract, hk, hproc]

/-- Witness for C4: a concrete processing-state model and environment. -/
theorem processing_guard_witness :
    (captureAndExtract
      ⟨some "k", true, true, true, 1920, 1080, 400, 800, Except.ok "t", "id1", 5, "p"⟩
      ⟨AppState.PROCESSING, [], none, none, false, none, ⟨35, 5, 85, 30⟩, true⟩).requestStarted
        = false ∧
    (captureAndExtract
      ⟨some "k", true, true, true, 1920, 1080, 400, 800, Except.ok "t", "id1", 5, "p"⟩
      ⟨AppState.PROCESSING, [], none, none, false, none, ⟨35, 5, 85, 30⟩, true⟩).model.history
        = [] ∧
    (captureAndExtract
      ⟨some "k", true, true, true, 1920, 1080, 400, 800, Except.ok "t", "id1", 5, "p"⟩
      ⟨AppState.PROCESSING, [], none, none, false, none, ⟨35, 5, 85, 30⟩, true⟩).model.appState
        = AppState.PROCESSING :=
  processing_guard
    ⟨some "k", true, true, true, 1920, 1080, 400, 800, Except.ok "t", "id1", 5, "p"⟩
    ⟨AppState.PROCESSING, [], none, none, false, none, ⟨35, 5, 85, 30⟩, true⟩ rfl

/-- C5: when the awaited extraction call fails, the history list is
unchanged and the application state returns to `IDLE`, never `ERROR`. -/
theorem extraction_failure_idle (env : CaptureEnv) (s : Model) (msg : String)
    (hk : keyConfigured env.apiKey = true)
    (hv : env.videoPresent = true) (hc : env.canvasPresent = true)
    (hs : ¬ s.appState = AppState.PROCESSING)
    (hctx : env.contextPresent = true) (hw : ¬ env.videoWidth = 0)
    (hfail : env.extraction = Except.error msg) :
    (captureAndExtract env s).model.history = s.history ∧
    (captureAndExtract env s).model.appState = AppState.IDLE ∧
    ¬ (captureAndExtract env s).model.appState = AppState.ERROR := by
  simp [captureAndExtract, hk, hv, hc, hs, hctx, hw, hfail]

/-- Witness for C5: a concrete failing extraction against a one-record
history. -/
theorem extraction_failure_idle_witness :
    (captureAndExtract
      ⟨some "k", true, true, true, 1920, 1080, 400, 800, Except.error "boom", "id1", 5, "p"⟩
      ⟨AppState.IDLE, [⟨"r0", 0, "old", "q"⟩], none, none, false, none,
        ⟨35, 5, 85, 30⟩, true⟩).model.history = [⟨"r0", 0, "old", "q"⟩] ∧
    (captureAndExtract
      ⟨some "k", true, true, true, 1920, 1080, 400, 800, Except.error "boom", "id1", 5, "p"⟩
      ⟨AppState.IDLE, [⟨"r0", 0, "old", "q"⟩], none, none, false, none,
        ⟨35, 5, 85, 30⟩, true⟩).model.appState = AppState.IDLE ∧
    ¬ (captureAndExtract
      ⟨some "k", true, true, true, 1920, 1080, 400, 800, Except.error "boom", "id1", 5, "p"⟩
      ⟨AppState.IDLE, [⟨"r0", 0, "old", "q"⟩], none, none, false, none,
        ⟨35, 5, 85, 30⟩, true⟩).model.appState = AppState.ERROR :=
  extraction_failure_idle
    ⟨some "k", true, true, true, 1920, 1080, 400, 800, Except.error "boom", "id1", 5, "p"⟩
    ⟨AppState.IDLE, [⟨"r0", 0, "old", "q"⟩], none, none, false, none,
      ⟨35, 5, 85, 30⟩, true⟩
    "boom" rfl rfl rfl (by simp) rfl (by norm_num) rfl

/-- A concrete extraction record used to exhibit the latest-result reset. -/
def sampleResult : ExtractionResult := ⟨"r1", 0, "hello", "u"⟩

/-- A capture environment whose video frame is not yet available: both
frame dimensions are 0, everything else is in order. -/
def videoNotReadyEnv : CaptureEnv :=
  ⟨some "k", true, true, true, 0, 0, 400, 800, Except.ok "t", "id1", 5, "p"⟩

/-- An idle state currently displaying a latest result. -/
def stateWithLatest : Model :=
  ⟨AppState.IDLE, [], none, some sampleResult, false, none, ⟨35, 5, 85, 30⟩, true⟩

/-- C6 counterexample: with the frame not yet available (frame height 0,
frame width 0) the capture is aborted, but the latest-result field does not
equal its value before the trigger — it is cleared from a present result to
`none`, so the abort is not free of state change. -/
theorem video_not_ready_cx :
    videoNotReadyEnv.videoHeight = 0 ∧
    stateWithLatest.latestResult = some sampleResult ∧
    (captureAndExtract videoNotReadyEnv stateWithLatest).model.latestResult = none ∧
    ¬ (captureAndExtract videoNotReadyEnv stateWithLatest).model.latestResult =
        stateWithLatest.latestResult := by
  refine ⟨rfl, rfl, ?_, ?_⟩ <;>
    simp [captureAndExtract, videoNotReadyEnv, stateWithLatest, keyConfigured]

/-- C6 amended: if the video frame is not yet available at capture time
(the code checks frame width 0), the frame-to-source mapper is not invoked,
no extraction request starts, history is unchanged and the application
state ends `IDLE`, but the latest-result field is cleared to `none` rather
than kept. -/
theorem video_not_ready_abort (env : CaptureEnv) (s : Model)
    (hk : keyConfigured env.apiKey = true)
    (hv : env.videoPresent = true) (hc : env.canvasPresent = true)
    (hs : ¬ s.appState = AppState.PROCESSING)
    (hw : env.videoWidth = 0) :
    (captureAndExtract env s).cropUsed = none ∧
    (captureAndExtract env s).requestStarted = false ∧
    (captureAndExtract env s).model.history = s.history ∧
    (captureAndExtract env s).model.appState = AppState.IDLE ∧
    (captureAndExtract env s).model.latestResult = none := by
  simp [captureAndExtract, hk, hv, hc, hs, hw]

/-- Witness for the amended C6: the concrete not-ready environment and
state above. -/
theorem video_not_ready_abort_witness :
    (captureAndExtract videoNotReadyEnv stateWithLatest).cropUsed = none ∧
    (captureAndExtract videoNotReadyEnv stateWithLatest).requestStarted = false ∧
    (captureAndExtract videoNotReadyEnv stateWithLatest).model.history =
      stateWithLatest.history ∧
    (captureAndExtract videoNotReadyEnv stateWithLatest).model.appState =
      AppState.IDLE ∧
    (captureAndExtract videoNotReadyEnv stateWithLatest).model.latestResult = none :=
  video_not_ready_abort videoNotReadyEnv stateWithLatest rfl rfl rfl
    (by simp [stateWithLatest]) rfl

/-- The `onDelete` handler of the history view (`src/App.tsx` line 470):
`setHistory(prev => prev.filter(x => x.id !== id))`. -/
def onDelete (i : String) (h : List ExtractionResult) : List ExtractionResult :=
  h.filter (fun x => x.id ≠ i)

/-- C7: on a history whose record ids are unique (the identity invariant of
the data model), deleting by an id present in the history removes exactly
one entry — the record carrying that id — and the remaining entries keep
their relative order: the history splits as `pre ++ x :: post` with
`x.id = i` and the deletion returns `pre ++ post`. -/
theorem delete_removes_exactly_one (i : String) (h : List ExtractionResult)
    (hnd : (h.map ExtractionResult.id).Nodup)
    (hmem : i ∈ h.map ExtractionResult.id) :
    ∃ pre x post, h = pre ++ x :: post ∧ x.id = i ∧ onDelete i h = pre ++ post := by
  induction h with
  | nil => simp at hmem
  | cons a t ih =>
    simp only [List.map_cons, List.nodup_cons] at hnd
    obtain ⟨hna, hndt⟩ := hnd
    by_cases hai : a.id = i
    · refine ⟨[], a, t, by simp, hai, ?_⟩
      simp only [onDelete, List.filter_cons, hai]
      simp only [decide_not, List.nil_append]
      rw [if_neg (by simp)]
      rw [List.filter_eq_self]
      intro x hx
      simp only [decide_not, Bool.not_eq_true', decide_eq_false_iff_not]
      intro hxi
      apply hna
      rw [hai, ← hxi]
      exact List.mem_map_of_mem ExtractionResult.id hx
    · have hmem' : i ∈ t.map ExtractionResult.id := by
        simp only [List.map_cons, List.mem_cons] at hmem
        tauto
      obtain ⟨pre, x, post, heq, hxi, hdel⟩ := ih hndt hmem'
      refine ⟨a :: pre, x, post, by simp [heq], hxi, ?_⟩
      simp only [onDelete, List.filter_cons]
      rw [if_pos (by simp [hai])]
      simpa [onDelete] using hdel

/-- Witness for C7: deleting id r1 from a concrete two-record history. -/
theorem delete_removes_exactly_one_witness :
    ∃ pre x post,
      [sampleResult, (⟨"r2", 1, "bye", "v"⟩ : ExtractionResult)] = pre ++ x :: post ∧
      x.id = "r1" ∧
      onDelete "r1" [sampleResult, ⟨"r2", 1, "bye", "v"⟩] = pre ++ post :=
  delete_removes_exactly_one "r1" [sampleResult, ⟨"r2", 1, "bye", "v"⟩]
    (by simp [sampleResult]) (by simp [sampleResult])

/-- The key-missing message thrown by `extractTextFromImage` before the SDK
is initialized. -/
def geminiKeyMsg : String :=
  "Missing Gemini API Key. Please ensure the API_KEY environment variable is correctly set in your deployment settings and redeploy."

/-- The empty-result message thrown when the model response carries no
text. -/
def geminiEmptyMsg : String :=
  "The AI returned an empty response. The image might be too blurry or contain no readable text."

/-- The mapped authentication-failure message of the catch block. -/
def geminiAuthMsg : String :=
  "Authentication failed. Check if your API_KEY is valid and has permission for Gemini 3 models."

/-- The fallback message when a caught error carries an empty message. -/
def geminiFallbackMsg : String :=
  "An unexpected error occurred during text extraction."

/-- The catch block of `extractTextFromImage`
(`src/services/geminiService.ts` lines 53-61): errors whose message
mentions API key or 403 are mapped to the authentication message, an empty
message falls back to the generic one, anything else is rethrown as is. -/
def mapGeminiError (m : String) : String :=
  if strIncludes m "API key" || strIncludes m "403" then geminiAuthMsg
  else if m = "" then geminiFallbackMsg
  else m

/-- The `extractTextFromImage` function of `src/services/geminiService.ts`
as a function of the API key and of the SDK call outcome: `apiResult` is
`Except.error m` when `generateContent` throws with message `m`, and
`Except.ok t` when it returns a response whose `text` field is `t`
(`none` for an absent text). The key guard throws before the try block;
inside it, an absent or empty response text throws the empty-result error,
which the catch block then maps like any other thrown error. -/
def extractTextFromImage (apiKey : Option String)
    (apiResult : Except String (Option String)) : Except String String :=
  if keyConfigured apiKey = false then Except.error geminiKeyMsg
  else
    match apiResult with
    | Except.error m => Except.error (mapGeminiError m)
    | Except.ok t =>
      match t with
      | none => Except.error (mapGeminiError geminiEmptyMsg)
      | some txt =>
          if txt = "" then Except.error (mapGeminiError geminiEmptyMsg)
          else Except.ok txt

/-- C8: `extractTextFromImage` never returns an empty text — every
successful return is a non-empty string — and when the model response text
is empty or absent it fails with the empty-result reason rather than
returning an empty string. -/
theorem extract_nonempty_or_fails (apiKey : Option String)
    (apiResult : Except String (Option String)) :
    (∀ t, extractTextFromImage apiKey apiResult = Except.ok t → ¬ t = "") ∧
    (keyConfigured apiKey = true →
      extractTextFromImage apiKey (Except.ok (some "")) =
        Except.error geminiEmptyMsg ∧
      extractTextFromImage apiKey (Except.ok none) =
        Except.error geminiEmptyMsg) := by
  have hmap : mapGeminiError geminiEmptyMsg = geminiEmptyMsg := by
    have h1 : strIncludes geminiEmptyMsg "API key" = false := by decide
    have h2 : strIncludes geminiEmptyMsg "403" = false := by decide
    have h3 : ¬ geminiEmptyMsg = "" := by decide
    simp [mapGeminiError, h1, h2, h3]
  constructor
  · intro t ht
    cases hk : keyConfigured apiKey
    · simp [extractTextFromImage, hk] at ht
    · rcases apiResult with m | r
      · simp [extractTextFromImage, hk] at ht
      · rcases r with _ | txt
        · simp [extractTextFromImage, hk] at ht
        · by_cases he : txt = "" <;>
            simp [extractTextFromImage, hk, he] at ht
          exact ht ▸ he
  · intro hk
    constructor <;> simp [extractTextFromImage, hk, hmap]

/-- Witness for C8: with a configured key, a response with text hi succeeds
with a non-empty string, and an empty response text yields the empty-result
failure. -/
theorem extract_nonempty_or_fails_witness :
    ¬ (("hi" : String) = "") ∧
    extractTextFromImage (some "k") (Except.ok (some "")) =
      Except.error geminiEmptyMsg :=
  ⟨(extract_nonempty_or_fails (some "k") (Except.ok (some "hi"))).1 "hi" (by rfl),
    ((extract_nonempty_or_fails (some "k") (Except.ok (some ""))).2 (by decide)).1⟩

/-- The environment one `startCamera` call observes: whether
`navigator.mediaDevices.getUserMedia` exists, the outcome of the
acquisition, and the API key consulted by the error-clearing step. -/
structure CameraEnv where
  mediaDevicesSupported : Bool
  acquired : Except Unit Unit
  apiKey : Option String
deriving Repr

/-- The unsupported-API message of `startCamera`. -/
def cameraApiMsg : String := "Camera API not supported in this browser."

/-- The acquisition-failure message of the `startCamera` catch block. -/
def cameraAccessMsg : String :=
  "Could not access camera. Please ensure permissions are granted."

/-- The `startCamera` function of `src/App.tsx` (lines 91-132) as a state
transformer: the support guard; on successful acquisition the stream is
installed and the displayed error is cleared only when the API key is
configured (lines 121-126); on failure the camera error message is set and
the state becomes `ERROR`. -/
def startCamera (env : CameraEnv) (s : Model) : Model :=
  if env.mediaDevicesSupported = false then { s with error := some cameraApiMsg }
  else
    match env.acquired with
    | Except.ok _ =>
        let s1 := { s with stream := true }
        if keyConfigured env.apiKey = true then { s1 with error := none } else s1
    | Except.error _ =>
        { s with error := some cameraAccessMsg, appState := AppState.ERROR }

/-- The Try Again button handler of the error panel (`src/App.tsx` line
317): `startCamera(); if (!isApiKeyMissing) setError(null);`. -/
def tryAgain (env : CameraEnv) (s : Model) : Model :=
  let s1 := startCamera env s
  if s.isApiKeyMissing = false then { s1 with error := none } else s1

/-- C10: a successful camera (re)acquisition clears the displayed error
message exactly when an API key is configured; when the key is missing the
displayed error — in particular the credential-missing message — survives
the acquisition unchanged, and also survives the Try Again handler when the
key-missing flag is set. -/
theorem camera_clear_error_policy (env : CameraEnv) (s : Model)
    (hsupp : env.mediaDevicesSupported = true)
    (hok : env.acquired = Except.ok ()) :
    (keyConfigured env.apiKey = true → (startCamera env s).error = none) ∧
    (keyConfigured env.apiKey = false → (startCamera env s).error = s.error) ∧
    (keyConfigured env.apiKey = false → s.isApiKeyMissing = true →
      (tryAgain env s).error = s.error) := by
  refine ⟨?_, ?_, ?_⟩
  · intro hk
    simp [startCamera, hsupp, hok, hk]
  · intro hk
    simp [startCamera, hsupp, hok, hk]
  · intro hk hmiss
    simp [tryAgain, startCamera, hsupp, hok, hk, hmiss]

/-- Witness for C10: a key-missing environment with a successful
reacquisition leaves the displayed credential error of a concrete state in
place. -/
theorem camera_clear_error_policy_witness :
    (startCamera ⟨true, Except.ok (), none⟩
      ⟨AppState.IDLE, [], some "no key", none, true, none, ⟨35, 5, 85, 30⟩, false⟩).error =
      some "no key" :=
  (camera_clear_error_policy ⟨true, Except.ok (), none⟩
    ⟨AppState.IDLE, [], some "no key", none, true, none, ⟨35, 5, 85, 30⟩, false⟩
    rfl rfl).2.1 rfl

end TextLens
